import Mathlib

/-!
Shallow embedding of `vupysolr/docs.py` (classes `VuFindParser` and
`VuFindMarcParser`), which parse Solr-stored VuFind records.

Python values stored in a document are modelled by the inductive `PyVal`.
A separate constructor `mapSub` models an instance of a mapping subtype
(it supports key lookup but its exact type is not `dict`), because
`VuFindMarcParser.fields` performs the exact-type test `type(x) == dict`.

Python exceptions are modelled by `PyErr`; an operation that can raise
returns `Except PyErr α`.  The external library functions
`dateutil.parser.isoparse` and `datetime.datetime.strptime` are not part
of this repository, so they are taken as parameters (`isoparse`, resp.
`strptime fmt s`, returning `Option DateTime`, where `Option.none` stands
for the parse failure `ValueError`).  CPython raises `TypeError` when a
non-`str` argument is handed to either parser; that behaviour is part of
the embedding (`PyErr.typeError` branches), since the repository code
relies on it via `except ValueError`.
-/

namespace Vupysolr

/-- A Python runtime error kind, as far as this code can raise one. -/
inductive PyErr where
  | typeError
  | valueError
  | keyError
  | attributeError
deriving DecidableEq

/-- A Python value as it can occur in a Solr document: `None`, an int, a
string, a list, a `dict` (exact type), or an instance of a proper mapping
subtype (key lookup works, but `type(x) == dict` is false). -/
inductive PyVal where
  | none
  | int (n : Int)
  | str (s : String)
  | list (xs : List PyVal)
  | dict (kvs : List (String × PyVal))
  | mapSub (kvs : List (String × PyVal))

/-- A document is a Python dict from field names to values. -/
abbrev Dict := List (String × PyVal)

/-- Python truthiness of a value (`if v:`). -/
def pyTruthy : PyVal → Bool
  | PyVal.none => false
  | PyVal.int n => decide (n ≠ 0)
  | PyVal.str s => decide (s ≠ "")
  | PyVal.list xs => !xs.isEmpty
  | PyVal.dict kvs => !kvs.isEmpty
  | PyVal.mapSub kvs => !kvs.isEmpty

/-- Substring test used by Python `key in someString`. -/
def strContainsSub (s pat : String) : Bool := decide ((s.splitOn pat).length ≠ 1)

/-- Python `key in v` for a string key: key test on dicts and mapping
subtypes, substring test on strings, element equality on lists;
`TypeError` on non-containers. -/
def pyContains (v : PyVal) (key : String) : Except PyErr Bool :=
  match v with
  | PyVal.dict kvs => Except.ok (kvs.any (fun kv => kv.1 == key))
  | PyVal.mapSub kvs => Except.ok (kvs.any (fun kv => kv.1 == key))
  | PyVal.str s => Except.ok (strContainsSub s key)
  | PyVal.list xs =>
      Except.ok (xs.any (fun x => match x with
        | PyVal.str t => t == key
        | _ => false))
  | _ => Except.error PyErr.typeError

/-- Python `v[key]` for a string key: lookup on dicts and mapping
subtypes (`KeyError` when missing), `TypeError` otherwise. -/
def pyGetItem (v : PyVal) (key : String) : Except PyErr PyVal :=
  match v with
  | PyVal.dict kvs =>
      match kvs.lookup key with
      | some x => Except.ok x
      | Option.none => Except.error PyErr.keyError
  | PyVal.mapSub kvs =>
      match kvs.lookup key with
      | some x => Except.ok x
      | Option.none => Except.error PyErr.keyError
  | _ => Except.error PyErr.typeError

/-- Python `for x in v`: lists yield their elements, strings their
one-character strings, dicts and mapping subtypes their keys;
`TypeError` on non-iterables. -/
def pyIter : PyVal → Except PyErr (List PyVal)
  | PyVal.list xs => Except.ok xs
  | PyVal.str s => Except.ok (s.toList.map (fun c => PyVal.str (String.mk [c])))
  | PyVal.dict kvs => Except.ok (kvs.map (fun kv => PyVal.str kv.1))
  | PyVal.mapSub kvs => Except.ok (kvs.map (fun kv => PyVal.str kv.1))
  | _ => Except.error PyErr.typeError

/-- First `n` characters of a string (Python `s[:n]`), computed on the
character list. -/
def strTake (s : String) (n : Nat) : String := String.mk (s.toList.take n)

/-- Python `str.strip()`: drop whitespace from both ends, computed on
the character list. -/
def pyStrip (s : String) : String :=
  String.mk (((s.toList.dropWhile Char.isWhitespace).reverse.dropWhile
    Char.isWhitespace).reverse)

/-- Python `len` of a string (number of characters). -/
def strLen (s : String) : Nat := s.toList.length

/-- Python `v[:6]`: first 6 characters of a string or first 6 elements of
a list; `TypeError` otherwise (slicing a dict raises `TypeError`). -/
def pySlice6 : PyVal → Except PyErr PyVal
  | PyVal.str s => Except.ok (PyVal.str (strTake s 6))
  | PyVal.list xs => Except.ok (PyVal.list (xs.take 6))
  | _ => Except.error PyErr.typeError

/-- A parsed timestamp, as produced by the external datetime parsers. -/
structure DateTime where
  year : Nat
  month : Nat
  day : Nat
  hour : Nat
  minute : Nat
  second : Nat
deriving DecidableEq

/-- A parsed calendar date (`datetime.date`). -/
structure Date where
  year : Nat
  month : Nat
  day : Nat
deriving DecidableEq

/-- Zero-pad a number to a given width. -/
def padNum (w : Nat) (n : Nat) : String :=
  let s := toString n
  if s.length < w then String.mk (List.replicate (w - s.length) '0') ++ s else s

/-- Python `datetime.isoformat()` for a datetime without sub-second part
and without timezone. -/
def DateTime.isoformat (t : DateTime) : String :=
  padNum 4 t.year ++ "-" ++ padNum 2 t.month ++ "-" ++ padNum 2 t.day ++ "T" ++
    padNum 2 t.hour ++ ":" ++ padNum 2 t.minute ++ ":" ++ padNum 2 t.second

/-- Python `datetime.date()` conversion. -/
def DateTime.toDate (t : DateTime) : Date := ⟨t.year, t.month, t.day⟩

/-- Python `date.isoformat()`. -/
def Date.isoformat (d : Date) : String :=
  padNum 4 d.year ++ "-" ++ padNum 2 d.month ++ "-" ++ padNum 2 d.day

/-- `DT005 = "%Y%m%d%H%M%S.0"` from `docs.py` line 14: the fixed
`strptime` format for MARC control field 005 (14 digits, a literal
decimal point and a trailing zero). -/
def DT005 : String := "%Y%m%d%H%M%S.0"

/-- Format string used by `VuFindMarcParser.date_entered_date`. -/
def FMT008 : String := "%y%m%d"

/-- Signature of the external `datetime.datetime.strptime`, restricted to
`str` input (a non-`str` input raises `TypeError`, handled at call
sites): `strptime fmt s` is `some t` on success and `Option.none` when
CPython would raise `ValueError`. -/
abbrev Strptime := String → String → Option DateTime

/-- Signature of the external `dateutil.parser.isoparse`, restricted to
`str` input: `some t` on success, `Option.none` when the library raises
its parse error (a `ValueError` subclass). -/
abbrev Isoparse := String → Option DateTime

/-- `VuFindMarcParser` state after `__init__`: only the attribute
`fullrecord`.  The attribute is initialised to `None` and overwritten
with `doc["fullrecord"]` when the key exists, so a missing key and a
stored `None` both appear here as `PyVal.none`. -/
structure VuFindMarcParser where
  fullrecord : PyVal

/-- `VuFindMarcParser.__init__(doc)` where `doc` is `None` or a dict:
`"fullrecord" in doc` raises `TypeError` when `doc` is `None`; otherwise
the attribute is set from the dict. -/
def VuFindMarcParser.ofDoc : Option Dict → Except PyErr VuFindMarcParser
  | Option.none => Except.error PyErr.typeError
  | some d => Except.ok ⟨(d.lookup "fullrecord").getD PyVal.none⟩

/-- Property `VuFindMarcParser.fields`: `fullrecord["fields"]` when
`fullrecord is not None`, `type(fullrecord) == dict` and the dict has key
`"fields"`; `None` otherwise.  The exact-type test fails for `mapSub`. -/
def VuFindMarcParser.fields (m : VuFindMarcParser) : Option PyVal :=
  match m.fullrecord with
  | PyVal.dict kvs => kvs.lookup "fields"
  | _ => Option.none

/-- The `for field in fields: if tag in field: return field[tag]` scan
shared by `latest_transaction` and `date_entered`. -/
def scanTag (tag : String) : List PyVal → Except PyErr (Option PyVal)
  | [] => Except.ok Option.none
  | f :: rest =>
      match pyContains f tag with
      | Except.error e => Except.error e
      | Except.ok true =>
          match pyGetItem f tag with
          | Except.error e => Except.error e
          | Except.ok v => Except.ok (some v)
      | Except.ok false => scanTag tag rest

/-- Property `VuFindMarcParser.latest_transaction`: the value under key
`"005"` in the first element of `fields` containing that key.  The
source guard `if self.fields is not None:` also fails when the stored
`fullrecord["fields"]` value is itself `None` (the property returns the
same object `None` either way), so `some PyVal.none` yields absent. -/
def VuFindMarcParser.latest_transaction (m : VuFindMarcParser) : Except PyErr (Option PyVal) :=
  match m.fields with
  | Option.none => Except.ok Option.none
  | some PyVal.none => Except.ok Option.none
  | some fv =>
      match pyIter fv with
      | Except.error e => Except.error e
      | Except.ok l => scanTag "005" l

/-- Property `VuFindMarcParser.latest_transaction_datetime`:
`strptime(latest_trans, DT005)` with `except ValueError: pass` — a parse
failure yields `None`, but a `TypeError` (non-`str` argument) is not
caught.  A found 005 value that is the stored `None` fails the source
guard `if latest_trans is not None:` and yields absent. -/
def VuFindMarcParser.latest_transaction_datetime (strptime : Strptime)
    (m : VuFindMarcParser) : Except PyErr (Option DateTime) :=
  match m.latest_transaction with
  | Except.error e => Except.error e
  | Except.ok Option.none => Except.ok Option.none
  | Except.ok (some v) =>
      match v with
      | PyVal.none => Except.ok Option.none
      | PyVal.str s => Except.ok (strptime DT005 s)
      | _ => Except.error PyErr.typeError

/-- Property `VuFindMarcParser.latest_transaction_iso`. -/
def VuFindMarcParser.latest_transaction_iso (strptime : Strptime)
    (m : VuFindMarcParser) : Except PyErr (Option String) :=
  match m.latest_transaction_datetime strptime with
  | Except.error e => Except.error e
  | Except.ok Option.none => Except.ok Option.none
  | Except.ok (some t) => Except.ok (some t.isoformat)

/-- Property `VuFindMarcParser.date_entered`: `field["008"][:6]` for the
first element of `fields` containing key `"008"`.  As in
`latest_transaction`, a stored `None` under `"fields"` fails the source
guard `if self.fields is not None:` and yields absent. -/
def VuFindMarcParser.date_entered (m : VuFindMarcParser) : Except PyErr (Option PyVal) :=
  match m.fields with
  | Option.none => Except.ok Option.none
  | some PyVal.none => Except.ok Option.none
  | some fv =>
      match pyIter fv with
      | Except.error e => Except.error e
      | Except.ok l =>
          match scanTag "008" l with
          | Except.error e => Except.error e
          | Except.ok Option.none => Except.ok Option.none
          | Except.ok (some v) =>
              match pySlice6 v with
              | Except.error e => Except.error e
              | Except.ok w => Except.ok (some w)

/-- Property `VuFindMarcParser.date_entered_date`: requires the stripped
text to have length 6, then `strptime(date_entered, "%y%m%d").date()`
with `except ValueError: pass`.  A stored `None` fails the source guard
`if date_entered is not None ...` and yields absent; `.strip()` on any
other non-`str` raises `AttributeError`. -/
def VuFindMarcParser.date_entered_date (strptime : Strptime)
    (m : VuFindMarcParser) : Except PyErr (Option Date) :=
  match m.date_entered with
  | Except.error e => Except.error e
  | Except.ok Option.none => Except.ok Option.none
  | Except.ok (some v) =>
      match v with
      | PyVal.none => Except.ok Option.none
      | PyVal.str s =>
          if strLen (pyStrip s) = 6 then
            Except.ok ((strptime FMT008 s).map DateTime.toDate)
          else
            Except.ok Option.none
      | _ => Except.error PyErr.attributeError

/-- Property `VuFindMarcParser.date_entered_iso`. -/
def VuFindMarcParser.date_entered_iso (strptime : Strptime)
    (m : VuFindMarcParser) : Except PyErr (Option String) :=
  match m.date_entered_date strptime with
  | Except.error e => Except.error e
  | Except.ok Option.none => Except.ok Option.none
  | Except.ok (some d) => Except.ok (some d.isoformat)

/-- Lexicographic sort used for `names.sort()`. -/
def sortStrings (l : List String) : List String := l.mergeSort (fun a b => a ≤ b)

/-- `VuFindParser` state after `__init__`: attributes `raw`, `fields`
(the sorted key names), `marc` (optional sub-parser). -/
structure VuFindParser where
  raw : Option Dict
  fields : List String
  marc : Option VuFindMarcParser

/-- `VuFindParser._names`: sorted keys of `raw` when `raw` is truthy,
else the empty list. -/
def namesOf (raw : Option Dict) : List String :=
  match raw with
  | Option.none => []
  | some d => if d.isEmpty then [] else sortStrings (d.map Prod.fst)

/-- `VuFindParser.__init__(doc, marc=False)` where `doc` is `None` or a
dict.  `self.marc` is set whenever the `marc` flag is truthy — the flag,
not the document, is tested — and `VuFindMarcParser(None)` raises
`TypeError`, so construction itself can fail. -/
def VuFindParser.ofDoc (doc : Option Dict) (marc : Bool) : Except PyErr VuFindParser :=
  if marc then
    match VuFindMarcParser.ofDoc doc with
    | Except.error e => Except.error e
    | Except.ok m => Except.ok ⟨doc, namesOf doc, some m⟩
  else
    Except.ok ⟨doc, namesOf doc, Option.none⟩

/-- `VuFindParser._field(name)`: the value at `name` when `raw` is truthy
and has the key, else `None`. -/
def VuFindParser.field (p : VuFindParser) (name : String) : Option PyVal :=
  match p.raw with
  | Option.none => Option.none
  | some d => if d.isEmpty then Option.none else d.lookup name

/-- Property `VuFindParser.first_indexed`. -/
def VuFindParser.first_indexed (p : VuFindParser) : Option PyVal :=
  p.field "first_indexed"

/-- Property `VuFindParser.last_indexed`. -/
def VuFindParser.last_indexed (p : VuFindParser) : Option PyVal :=
  p.field "last_indexed"

/-- Property `VuFindParser.hierarchy_top_id`. -/
def VuFindParser.hierarchy_top_id (p : VuFindParser) : Option PyVal :=
  p.field "hierarchy_top_id"

/-- Property `VuFindParser.hierarchy_parent_id`: the source reads the
`"hierarchy_top_id"` key (docs.py line 104). -/
def VuFindParser.hierarchy_parent_id (p : VuFindParser) : Option PyVal :=
  p.field "hierarchy_top_id"

/-- Property `VuFindParser.first_indexed_datetime`: the source reads
`self.last_indexed` (docs.py line 82), checks truthiness, and calls
`dateutil.parser.isoparse` with no exception handling, so a parse
failure propagates (`ValueError`), as does a `TypeError` for a non-`str`
value. -/
def VuFindParser.first_indexed_datetime (isoparse : Isoparse)
    (p : VuFindParser) : Except PyErr (Option DateTime) :=
  match p.last_indexed with
  | Option.none => Except.ok Option.none
  | some v =>
      if pyTruthy v then
        match v with
        | PyVal.str s =>
            match isoparse s with
            | some t => Except.ok (some t)
            | Option.none => Except.error PyErr.valueError
        | _ => Except.error PyErr.typeError
      else Except.ok Option.none

/-- Property `VuFindParser.last_indexed_datetime`: same body as
`first_indexed_datetime`, reading `self.last_indexed`. -/
def VuFindParser.last_indexed_datetime (isoparse : Isoparse)
    (p : VuFindParser) : Except PyErr (Option DateTime) :=
  match p.last_indexed with
  | Option.none => Except.ok Option.none
  | some v =>
      if pyTruthy v then
        match v with
        | PyVal.str s =>
            match isoparse s with
            | some t => Except.ok (some t)
            | Option.none => Except.error PyErr.valueError
        | _ => Except.error PyErr.typeError
      else Except.ok Option.none

/-! Concrete fixtures used by counterexamples and witnesses. -/

/-- The parser value produced by `VuFindParser({}, marc=True)`. -/
def emptyDocParser : VuFindParser := ⟨some [], [], some ⟨PyVal.none⟩⟩

/-- A MARC parser whose `fullrecord` is a dict with a non-sequence
`"fields"` value. -/
def badFieldsMarc : VuFindMarcParser := ⟨PyVal.dict [("fields", PyVal.int 5)]⟩

/-- A MARC parser whose `fullrecord` is a list. -/
def listFullrecordMarc : VuFindMarcParser := ⟨PyVal.list []⟩

/-- A `strptime` stand-in that always fails with `ValueError`. -/
def stNone : Strptime := fun _ _ => Option.none

/-- C1 counterexample: `VuFindParser(None, marc=True)` raises `TypeError`
(`"fullrecord" in None` in `VuFindMarcParser.__init__`), so construction
is not failure-free and `RecordAccessor(None, withMarc=True)` does not
succeed. -/
theorem C1_cex_none_with_marc :
    VuFindParser.ofDoc Option.none true = Except.error PyErr.typeError := rfl

/-- C1 (amended): construction never fails when the document is a dict
(of any shape), and `VuFindParser(None)` without MARC succeeds with
`fields = []` and `marc` absent; but `VuFindParser(None, marc=True)`
raises `TypeError`. -/
theorem C1_construction :
    (∀ (d : Dict) (b : Bool), ∃ p, VuFindParser.ofDoc (some d) b = Except.ok p) ∧
    (∃ p, VuFindParser.ofDoc Option.none false = Except.ok p ∧
      p.fields = [] ∧ p.marc = Option.none) ∧
    VuFindParser.ofDoc Option.none true = Except.error PyErr.typeError := by
  refine ⟨?_, ⟨⟨Option.none, [], Option.none⟩, rfl, rfl, rfl⟩, rfl⟩
  intro d b
  cases b
  · exact ⟨_, rfl⟩
  · exact ⟨_, rfl⟩

/-- C2 counterexample: for the document whose `fullrecord` is the dict
`\x7b"fields": 5\x7d` (a mapping whose `"fields"` value is not a sequence of
mappings), `fields` returns `5` instead of absent, and
`latest_transaction` raises `TypeError` when iterating it. -/
theorem C2_cex_nonsequence_fields :
    VuFindMarcParser.ofDoc (some [("fullrecord", PyVal.dict [("fields", PyVal.int 5)])]) =
      Except.ok badFieldsMarc ∧
    badFieldsMarc.fields = some (PyVal.int 5) ∧
    badFieldsMarc.latest_transaction = Except.error PyErr.typeError := ⟨rfl, rfl, rfl⟩

/-- C2 (amended): when `fullrecord` is absent, not exactly a dict, or a
dict without key `"fields"`, every MARC accessor yields absent and no
error; a dict whose `"fields"` value is not a sequence of mappings is
not tolerated (see the counterexample). -/
theorem C2_malformed_fullrecord_all_absent (strptime : Strptime) (m : VuFindMarcParser)
    (h : ∀ kvs, m.fullrecord = PyVal.dict kvs → kvs.lookup "fields" = Option.none) :
    m.fields = Option.none ∧
    m.latest_transaction = Except.ok Option.none ∧
    m.latest_transaction_datetime strptime = Except.ok Option.none ∧
    m.latest_transaction_iso strptime = Except.ok Option.none ∧
    m.date_entered = Except.ok Option.none ∧
    m.date_entered_date strptime = Except.ok Option.none ∧
    m.date_entered_iso strptime = Except.ok Option.none := by
  have hf : m.fields = Option.none := by
    cases hm : m.fullrecord with
    | dict kvs => simp [VuFindMarcParser.fields, hm, h kvs hm]
    | none => simp [VuFindMarcParser.fields, hm]
    | int n => simp [VuFindMarcParser.fields, hm]
    | str s => simp [VuFindMarcParser.fields, hm]
    | list xs => simp [VuFindMarcParser.fields, hm]
    | mapSub kvs => simp [VuFindMarcParser.fields, hm]
  have hlt : m.latest_transaction = Except.ok Option.none := by
    simp [VuFindMarcParser.latest_transaction, hf]
  have hde : m.date_entered = Except.ok Option.none := by
    simp [VuFindMarcParser.date_entered, hf]
  refine ⟨hf, hlt, ?_, ?_, hde, ?_, ?_⟩
  · simp [VuFindMarcParser.latest_transaction_datetime, hlt]
  · simp [VuFindMarcParser.latest_transaction_iso,
      VuFindMarcParser.latest_transaction_datetime, hlt]
  · simp [VuFindMarcParser.date_entered_date, hde]
  · simp [VuFindMarcParser.date_entered_iso,
      VuFindMarcParser.date_entered_date, hde]

/-- C2 witness: a list-valued `fullrecord` makes every MARC accessor
absent without error. -/
theorem C2_malformed_fullrecord_all_absent_witness :
    listFullrecordMarc.fields = Option.none ∧
    listFullrecordMarc.latest_transaction = Except.ok Option.none ∧
    listFullrecordMarc.latest_transaction_datetime stNone = Except.ok Option.none ∧
    listFullrecordMarc.latest_transaction_iso stNone = Except.ok Option.none ∧
    listFullrecordMarc.date_entered = Except.ok Option.none ∧
    listFullrecordMarc.date_entered_date stNone = Except.ok Option.none ∧
    listFullrecordMarc.date_entered_iso stNone = Except.ok Option.none :=
  C2_malformed_fullrecord_all_absent stNone listFullrecordMarc
    (fun kvs hk => by simp [listFullrecordMarc] at hk)

/-- C3 counterexample: for the empty document with MARC requested,
`marc` is present (the constructor tests the `marc` flag, not the
truthiness of `raw`), contradicting the claim that it is absent. -/
theorem C3_cex_empty_doc_marc_present :
    VuFindParser.ofDoc (some []) true = Except.ok emptyDocParser ∧
    emptyDocParser.marc.isSome = true := ⟨rfl, rfl⟩

/-- C3 (amended): for every dict document on which construction
succeeds, `marc` is present exactly when MARC parsing was requested at
construction, independent of the truthiness of `raw`; in particular for
the empty document with MARC requested, `marc` is present. -/
theorem C3_marc_iff_requested (d : Dict) (b : Bool) (p : VuFindParser)
    (h : VuFindParser.ofDoc (some d) b = Except.ok p) :
    p.marc.isSome = b := by
  cases b
  · simp only [VuFindParser.ofDoc, Bool.false_eq_true, if_false,
      Except.ok.injEq] at h
    rw [← h]
    rfl
  · simp only [VuFindParser.ofDoc, if_true, VuFindMarcParser.ofDoc,
      Except.ok.injEq] at h
    rw [← h]
    rfl

/-- C3 witness: the empty document with MARC requested yields a present
`marc`. -/
theorem C3_marc_iff_requested_witness : emptyDocParser.marc.isSome = true :=
  C3_marc_iff_requested [] true emptyDocParser rfl

/-- A document carrying distinct `first_indexed` and `last_indexed`
values. -/
def indexedDoc : Dict :=
  [("first_indexed", PyVal.str "2020-01-01T00:00:00Z"),
   ("last_indexed", PyVal.str "2023-05-01T12:00:00Z")]

/-- The parser over `indexedDoc` (no MARC). -/
def indexedParser : VuFindParser :=
  ⟨some indexedDoc, ["first_indexed", "last_indexed"], Option.none⟩

/-- An `isoparse` stand-in succeeding exactly on the fixture timestamp. -/
def isoFixed : Isoparse :=
  fun s => if s = "2023-05-01T12:00:00Z" then some ⟨2023, 5, 1, 12, 0, 0⟩ else Option.none

/-- An `isoparse` stand-in that always fails. -/
def isoNone : Isoparse := fun _ => Option.none

/-- The parser over a document whose `last_indexed` is not a date. -/
def lastIndexedBadParser : VuFindParser :=
  ⟨some [("last_indexed", PyVal.str "not-a-date")], ["last_indexed"], Option.none⟩

/-- C4: `first_indexed_datetime` is computed from the `last_indexed`
field — it always agrees with `last_indexed_datetime`; when the stored
`last_indexed` is a non-empty string the external ISO parser accepts,
both return the parsed instant, and both are absent when the field is
absent. -/
theorem C4_first_indexed_reads_last_indexed (isoparse : Isoparse) (p : VuFindParser) :
    p.first_indexed_datetime isoparse = p.last_indexed_datetime isoparse ∧
    (∀ s t, p.field "last_indexed" = some (PyVal.str s) → s ≠ "" → isoparse s = some t →
      p.first_indexed_datetime isoparse = Except.ok (some t) ∧
      p.last_indexed_datetime isoparse = Except.ok (some t)) ∧
    (p.field "last_indexed" = Option.none →
      p.first_indexed_datetime isoparse = Except.ok Option.none ∧
      p.last_indexed_datetime isoparse = Except.ok Option.none) := by
  refine ⟨rfl, ?_, ?_⟩
  · intro s t hs hne hiso
    have hl : p.last_indexed = some (PyVal.str s) := hs
    constructor <;>
      simp [VuFindParser.first_indexed_datetime, VuFindParser.last_indexed_datetime,
        hl, pyTruthy, hne, hiso]
  · intro h0
    have hl : p.last_indexed = Option.none := h0
    constructor <;>
      simp [VuFindParser.first_indexed_datetime, VuFindParser.last_indexed_datetime, hl]

/-- C4 witness: with `last_indexed = "2023-05-01T12:00:00Z"` (and a
different `first_indexed`), both datetime accessors return the instant
parsed from `last_indexed`. -/
theorem C4_first_indexed_reads_last_indexed_witness :
    indexedParser.first_indexed_datetime isoFixed = Except.ok (some ⟨2023, 5, 1, 12, 0, 0⟩) ∧
    indexedParser.last_indexed_datetime isoFixed = Except.ok (some ⟨2023, 5, 1, 12, 0, 0⟩) :=
  (C4_first_indexed_reads_last_indexed isoFixed indexedParser).2.1
    "2023-05-01T12:00:00Z" ⟨2023, 5, 1, 12, 0, 0⟩ rfl (by decide) rfl

/-- C5: a present but invalid `last_indexed` text makes both
`last_indexed_datetime` and `first_indexed_datetime` raise the parse
error (`ValueError` from `dateutil.parser.isoparse`) instead of
returning absent. -/
theorem C5_invalid_iso_raises (isoparse : Isoparse) (p : VuFindParser) (s : String)
    (h1 : p.field "last_indexed" = some (PyVal.str s)) (h2 : s ≠ "")
    (h3 : isoparse s = Option.none) :
    p.last_indexed_datetime isoparse = Except.error PyErr.valueError ∧
    p.first_indexed_datetime isoparse = Except.error PyErr.valueError := by
  have hl : p.last_indexed = some (PyVal.str s) := h1
  constructor <;>
    simp [VuFindParser.first_indexed_datetime, VuFindParser.last_indexed_datetime,
      hl, pyTruthy, h2, h3]

/-- C5 witness: `last_indexed = "not-a-date"` raises `ValueError` from
both datetime accessors. -/
theorem C5_invalid_iso_raises_witness :
    lastIndexedBadParser.last_indexed_datetime isoNone = Except.error PyErr.valueError ∧
    lastIndexedBadParser.first_indexed_datetime isoNone = Except.error PyErr.valueError :=
  C5_invalid_iso_raises isoNone lastIndexedBadParser "not-a-date" rfl (by decide) rfl

/-- A MARC parser with a well-formed 005 control field. -/
def marc005 : VuFindMarcParser :=
  ⟨PyVal.dict [("fields", PyVal.list [PyVal.dict [("005", PyVal.str "20230501123045.0")]])]⟩

/-- C6: `latest_transaction_datetime` hands the present
`latest_transaction` text to the external `strptime` with the fixed
format `DT005 = "%Y%m%d%H%M%S.0"`; the result is whatever `strptime`
yields, so a `ValueError` parse failure is swallowed into absent, and
the accessor is absent when `latest_transaction` is absent. -/
theorem C6_latest_transaction_datetime_format (strptime : Strptime) (m : VuFindMarcParser) :
    DT005 = "%Y%m%d%H%M%S.0" ∧
    (m.latest_transaction = Except.ok Option.none →
      m.latest_transaction_datetime strptime = Except.ok Option.none) ∧
    (∀ s, m.latest_transaction = Except.ok (some (PyVal.str s)) →
      m.latest_transaction_datetime strptime = Except.ok (strptime DT005 s)) := by
  refine ⟨rfl, ?_, ?_⟩
  · intro h
    simp [VuFindMarcParser.latest_transaction_datetime, h]
  · intro s h
    simp [VuFindMarcParser.latest_transaction_datetime, h]

/-- C6 witness: with a failing `strptime`, the parse failure is
swallowed and the accessor returns absent. -/
theorem C6_latest_transaction_datetime_format_witness :
    marc005.latest_transaction_datetime stNone = Except.ok (stNone DT005 "20230501123045.0") :=
  (C6_latest_transaction_datetime_format stNone marc005).2.2 "20230501123045.0" rfl

/-- A MARC parser whose 008 value is shorter than 6 characters. -/
def marc008short : VuFindMarcParser :=
  ⟨PyVal.dict [("fields", PyVal.list [PyVal.dict [("008", PyVal.str "2305")]])]⟩

/-- C7: `date_entered` is the 6-character slice of the value under
`"008"` in the first element of `fields` containing that key — no
length validation, a shorter value yields what is available — and
`date_entered_date` is absent whenever the trimmed `date_entered` text
does not have exactly 6 characters. -/
theorem C7_date_entered_slice (strptime : Strptime) (m : VuFindMarcParser)
    (l : List PyVal) (s : String)
    (h1 : m.fields = some (PyVal.list l))
    (h2 : scanTag "008" l = Except.ok (some (PyVal.str s))) :
    m.date_entered = Except.ok (some (PyVal.str (strTake s 6))) ∧
    (strLen (pyStrip (strTake s 6)) ≠ 6 →
      m.date_entered_date strptime = Except.ok Option.none) := by
  have hd : m.date_entered = Except.ok (some (PyVal.str (strTake s 6))) := by
    simp [VuFindMarcParser.date_entered, h1, pyIter, h2, pySlice6]
  refine ⟨hd, ?_⟩
  intro hlen
  simp [VuFindMarcParser.date_entered_date, hd, hlen]

/-- C7 witness: an 008 value `"2305"` gives `date_entered = "2305"` and
an absent `date_entered_date` (trimmed length 4, not 6). -/
theorem C7_date_entered_slice_witness :
    marc008short.date_entered = Except.ok (some (PyVal.str (strTake "2305" 6))) ∧
    marc008short.date_entered_date stNone = Except.ok Option.none := by
  have h := C7_date_entered_slice stNone marc008short
    [PyVal.dict [("008", PyVal.str "2305")]] "2305" rfl rfl
  exact ⟨h.1, h.2 (by decide)⟩

/-- C8: `fields` is `fullrecord["fields"]` exactly when `fullrecord` is
exactly a dict containing the key `"fields"`; in particular a proper
mapping subtype never qualifies, and in every other case `fields` is
absent. -/
theorem C8_fields_exact_dict (m : VuFindMarcParser) :
    (∀ v, m.fields = some v ↔
      ∃ kvs, m.fullrecord = PyVal.dict kvs ∧ kvs.lookup "fields" = some v) ∧
    (∀ kvs, m.fullrecord = PyVal.mapSub kvs → m.fields = Option.none) := by
  constructor
  · intro v
    constructor
    · intro h
      cases hm : m.fullrecord with
      | dict kvs => exact ⟨kvs, rfl, by simpa [VuFindMarcParser.fields, hm] using h⟩
      | none => simp [VuFindMarcParser.fields, hm] at h
      | int n => simp [VuFindMarcParser.fields, hm] at h
      | str s => simp [VuFindMarcParser.fields, hm] at h
      | list xs => simp [VuFindMarcParser.fields, hm] at h
      | mapSub kvs => simp [VuFindMarcParser.fields, hm] at h
    · rintro ⟨kvs, hm, hl⟩
      simp [VuFindMarcParser.fields, hm, hl]
  · intro kvs hm
    simp [VuFindMarcParser.fields, hm]

/-- A MARC parser whose `fullrecord` is a mapping subtype carrying a
`"fields"` key. -/
def mapSubMarc : VuFindMarcParser := ⟨PyVal.mapSub [("fields", PyVal.list [])]⟩

/-- C8 witness: a mapping subtype with a `"fields"` key still yields an
absent `fields`. -/
theorem C8_fields_exact_dict_witness : mapSubMarc.fields = Option.none :=
  (C8_fields_exact_dict mapSubMarc).2 [("fields", PyVal.list [])] rfl

/-- C9: `hierarchy_parent_id` reads the `"hierarchy_top_id"` key — it
always equals `hierarchy_top_id`, and it is absent whenever the
`"hierarchy_top_id"` field is absent, whatever else the document
holds. -/
theorem C9_hierarchy_parent_reads_top (p : VuFindParser) :
    p.hierarchy_parent_id = p.hierarchy_top_id ∧
    (p.field "hierarchy_top_id" = Option.none → p.hierarchy_parent_id = Option.none) :=
  ⟨rfl, fun h => h⟩

/-- The parser over a document with only a `hierarchy_parent_id` key. -/
def parentOnlyParser : VuFindParser :=
  ⟨some [("hierarchy_parent_id", PyVal.str "x")], ["hierarchy_parent_id"], Option.none⟩

/-- C9 witness: a document carrying `hierarchy_parent_id` but no
`hierarchy_top_id` makes the `hierarchy_parent_id` accessor absent. -/
theorem C9_hierarchy_parent_reads_top_witness :
    parentOnlyParser.hierarchy_parent_id = Option.none :=
  (C9_hierarchy_parent_reads_top parentOnlyParser).2 rfl

/-- A MARC parser whose first 005 entry stores `None`. -/
def marc005none : VuFindMarcParser :=
  ⟨PyVal.dict [("fields", PyVal.list [PyVal.dict [("005", PyVal.none)]])]⟩

/-- C10 counterexample: for the document whose first 005 entry holds the
non-text value `None`, `latest_transaction` returns that stored `None`,
and `latest_transaction_datetime` returns absent — the guard
`if latest_trans is not None:` skips `strptime`, so no type error is
raised, contradicting the claim for every non-text value. -/
theorem C10_cex_stored_none :
    marc005none.latest_transaction = Except.ok (some PyVal.none) ∧
    marc005none.latest_transaction_datetime stNone = Except.ok Option.none := ⟨rfl, rfl⟩

/-- C10 (amended): the `except ValueError` in
`latest_transaction_datetime` does not cover non-`str` 005 values other
than `None` — for a number, a sequence or a mapping, `strptime` raises
`TypeError`, which propagates to the caller; a stored `None` instead
fails the `is not None` guard and yields absent. -/
theorem C10_noncaught_type_error (strptime : Strptime) (m : VuFindMarcParser) (v : PyVal)
    (h1 : m.latest_transaction = Except.ok (some v))
    (h2 : ∀ s, v ≠ PyVal.str s) (h3 : v ≠ PyVal.none) :
    m.latest_transaction_datetime strptime = Except.error PyErr.typeError := by
  cases v with
  | str s => exact absurd rfl (h2 s)
  | none => exact absurd rfl h3
  | int n => simp [VuFindMarcParser.latest_transaction_datetime, h1]
  | list xs => simp [VuFindMarcParser.latest_transaction_datetime, h1]
  | dict kvs => simp [VuFindMarcParser.latest_transaction_datetime, h1]
  | mapSub kvs => simp [VuFindMarcParser.latest_transaction_datetime, h1]

/-- A MARC parser whose first 005 value is a number. -/
def marc005int : VuFindMarcParser :=
  ⟨PyVal.dict [("fields", PyVal.list [PyVal.dict [("005", PyVal.int 20230501123045)]])]⟩

/-- C10 witness: a numeric 005 value makes
`latest_transaction_datetime` raise `TypeError`. -/
theorem C10_noncaught_type_error_witness :
    marc005int.latest_transaction_datetime stNone = Except.error PyErr.typeError :=
  C10_noncaught_type_error stNone marc005int (PyVal.int 20230501123045) rfl
    (fun _ h => PyVal.noConfusion h) (fun h => PyVal.noConfusion h)

end Vupysolr
